import Mathlib

/-!
Verification of the Okta "unassign user from group" action.

The repository ships one operation in three handlers (`invoke`, `error`,
`halt`).  The canonical source is `src/script.mjs` (appended to the test
file in this snapshot); the build bundle `src/dist/index.js` contains a
second, self-contained variant of the `invoke` handler that performs its
own input validation and bearer-token handling.  Both are embedded below:
the bundled variant in namespace `Dist`, the canonical one at top level of
namespace `Okta`.

JavaScript strings are modelled as `List Char` (`Str`); JavaScript values
that flow through untyped parameter records are modelled by `JSVal`;
exceptions are modelled with `Except JsError`.  The single outbound
`fetch` call is modelled by recording the request that would be issued
(`InvokeOutcome.fetched`) and taking the response as an explicit input.
Console logging is not modelled except for the `error` handler, whose
log line is part of its specified behaviour.
-/

deriving instance DecidableEq for Except

namespace Okta

/-- JavaScript strings, modelled as lists of unicode scalar values. -/
abbrev Str := List Char

/-- Untyped JavaScript values as far as the handlers inspect them:
`typeof` and truthiness.  Numbers are modelled as integers. -/
inductive JSVal where
  | undefined
  | null
  | bool (b : Bool)
  | num (n : Int)
  | str (s : Str)
  | obj
deriving DecidableEq

/-- JavaScript truthiness of a `JSVal`. -/
def jsTruthy : JSVal → Bool
  | .undefined => false
  | .null => false
  | .bool b => b
  | .num n => n != 0
  | .str s => !s.isEmpty
  | .obj => true

/-- Whether `typeof v === 'string'`. -/
def typeofIsString : JSVal → Bool
  | .str _ => true
  | _ => false

/-- JavaScript string coercion, as used by template-literal interpolation. -/
def jsToString : JSVal → Str
  | .undefined => ("undefined".toList)
  | .null => ("null".toList)
  | .bool true => ("true".toList)
  | .bool false => ("false".toList)
  | .num n => (toString n).toList
  | .str s => s
  | .obj => ("[object Object]".toList)

/-- Truthiness of an optional string secret/parameter (absent and the
empty string are falsy). -/
def strTruthy : Option Str → Bool
  | none => false
  | some s => !s.isEmpty

/-- An uppercase hexadecimal digit, as produced by percent-encoding. -/
def hexDigit : Nat → Char
  | 0 => '0' | 1 => '1' | 2 => '2' | 3 => '3' | 4 => '4'
  | 5 => '5' | 6 => '6' | 7 => '7' | 8 => '8' | 9 => '9'
  | 10 => 'A' | 11 => 'B' | 12 => 'C' | 13 => 'D' | 14 => 'E' | 15 => 'F'
  | _ => '0'

/-- `%XY` escape of one byte (two uppercase hex digits). -/
def pctEncodeByte (b : Nat) : Str :=
  ['%', hexDigit (b / 16), hexDigit (b % 16)]

/-- UTF-8 byte sequence of one unicode scalar value, as `encodeURIComponent`
encodes non-ASCII characters byte by byte. -/
def utf8Bytes (c : Char) : List Nat :=
  let n := c.toNat
  if n < 128 then [n]
  else if n < 2048 then [192 + n / 64, 128 + n % 64]
  else if n < 65536 then [224 + n / 4096, 128 + (n / 64) % 64, 128 + n % 64]
  else [240 + n / 262144, 128 + (n / 4096) % 64, 128 + (n / 64) % 64, 128 + n % 64]

/-- The `uriUnescaped` set of ECMA-262 `encodeURIComponent`: ASCII
alphanumerics and `- _ . ! ~ * ' ( )` (39 is the apostrophe). -/
def isUriUnescaped (c : Char) : Bool :=
  (('A' ≤ c && c ≤ 'Z') || ('a' ≤ c && c ≤ 'z') || ('0' ≤ c && c ≤ '9')
    || ['-', '_', '.', '!', '~', '*', Char.ofNat 39, '(', ')'].contains c)

/-- Encoding of a single character under `encodeURIComponent`. -/
def encodeChar (c : Char) : Str :=
  if isUriUnescaped c then [c] else (utf8Bytes c).flatMap pctEncodeByte

/-- ECMA-262 `encodeURIComponent`, the encoding the source applies to each
identifier before splicing it into the URL path. -/
def encodeURIComponent (s : Str) : Str :=
  s.flatMap encodeChar

/-- A raised JavaScript error: its message, and the `statusCode` property
the source attaches on API failures. -/
structure JsError where
  message : Str
  statusCode : Option Nat
deriving DecidableEq

/-- The message of the configuration error raised by `getBaseUrl`. -/
def noUrlMessage : Str :=
  ("No URL specified. Provide address parameter or ADDRESS environment variable".toList)

/-- The value of the JavaScript expression `params?.address || env.ADDRESS`
(an absent or empty `address` parameter falls back to the environment). -/
def chooseAddress (paramsAddress envAddress : Option Str) : Option Str :=
  match paramsAddress with
  | some s => if s.isEmpty then envAddress else some s
  | none => envAddress

/-- `getBaseUrl` from `src/dist/index.js` (the shared utils helper): picks
`params?.address || env.ADDRESS`, throws when that is falsy, and removes one
trailing slash if present. -/
def getBaseUrl (paramsAddress envAddress : Option Str) : Except JsError Str :=
  match chooseAddress paramsAddress envAddress with
  | none => .error ⟨noUrlMessage, none⟩
  | some a =>
    if a.isEmpty then .error ⟨noUrlMessage, none⟩
    else .ok (if a.getLast? = some '/' then a.dropLast else a)

/-- The SSWS rewrite of `src/script.mjs` (lines 270-273): a header of the
form `Bearer <token>` has the `Bearer ` prefix stripped and, unless the
token already starts with `SSWS `, gets `SSWS ` prepended; any other header
is left unchanged. -/
def rewriteAuthHeader (authHeader : Str) : Str :=
  if ("Bearer ".toList).isPrefixOf authHeader then
    let token := authHeader.drop 7
    if ("SSWS ".toList).isPrefixOf token then token else ("SSWS ".toList) ++ token
  else authHeader

/-- The outbound HTTP request handed to `fetch`. -/
structure FetchRequest where
  url : Str
  method : Str
  authorization : Str
  accept : Str
  contentType : Str
deriving DecidableEq

/-- The only part of a JSON error body the source reads: its
`errorSummary` field (`JSVal.undefined` when absent). -/
structure ErrorBody where
  errorSummary : JSVal
deriving DecidableEq

/-- The mocked/observed `fetch` response: `ok`, `status`, and the result of
`response.json()` (`Except.error` models a body that fails to parse). -/
structure FetchResponse where
  ok : Bool
  status : Nat
  json : Except Unit ErrorBody
deriving DecidableEq

/-- `unassignUserFromGroup` from `src/script.mjs`: builds the DELETE
request, percent-encoding each identifier independently. -/
def unassignUserFromGroup (userId groupId baseUrl authHeader : Str) : FetchRequest where
  url := baseUrl ++ ("/api/v1/groups/".toList) ++ encodeURIComponent groupId
      ++ ("/users/".toList) ++ encodeURIComponent userId
  method := ("DELETE".toList)
  authorization := authHeader
  accept := ("application/json".toList)
  contentType := ("application/json".toList)

/-- The fixed stem of every removal-failure message. -/
def removalFailMsg : Str :=
  ("Failed to remove user from group: ".toList)

/-- The error-message computation for a non-success response (both invoke
variants, `src/script.mjs` lines 298-310): start from
`Failed to remove user from group: HTTP <status>`, and replace it with the
body's `errorSummary` when the body parses as JSON and that field is
truthy. -/
def mkErrorMessage (status : Nat) (json : Except Unit ErrorBody) : Str :=
  match json with
  | .error _ => removalFailMsg ++ ("HTTP ".toList) ++ (toString status).toList
  | .ok body =>
    if jsTruthy body.errorSummary then removalFailMsg ++ jsToString body.errorSummary
    else removalFailMsg ++ ("HTTP ".toList) ++ (toString status).toList

/-- The success record returned by `invoke`. -/
structure ResultRecord where
  userId : Str
  groupId : Str
  removed : Bool
  address : Str
  removedAt : Str
deriving DecidableEq

/-- Outcome of one run of an invoke handler: the returned value or raised
error, and the `fetch` request issued, if any (`none` means the handler
finished without any network call). -/
structure InvokeOutcome where
  result : Except JsError ResultRecord
  fetched : Option FetchRequest
deriving DecidableEq

/-- The credential material the four authentication schemes inspect
(string secrets/environment entries; `none` when unset). -/
structure Credentials where
  bearerAuthToken : Option Str
  basicUsername : Option Str
  basicPassword : Option Str
  oauth2ClientId : Option Str
  oauth2ClientSecret : Option Str
  oauth2TokenUrl : Option Str
  oauth2AccessToken : Option Str
deriving DecidableEq

/-- Modelled from the spec: `getAuthorizationHeader` of the external
`@sgnl-actions/utils` package is not under `src/`; spec section 4.1 step 4
describes it as inspecting the credential material in a fixed precedence
(bearer token, basic auth, OAuth2 client credentials, OAuth2 pre-issued
access token), returning a ready-to-send header value, and failing with
"No authentication configured" when no scheme has sufficient material.
The OAuth2 token exchange and the basic-auth encoding are external
effects, passed in as `exchange` and `basicEncode`. -/
def getAuthorizationHeader (c : Credentials) (exchange : Except JsError Str)
    (basicEncode : Str → Str → Str) : Except JsError Str :=
  if strTruthy c.bearerAuthToken then
    .ok (("Bearer ".toList) ++ c.bearerAuthToken.getD [])
  else if strTruthy c.basicUsername && strTruthy c.basicPassword then
    .ok (("Basic ".toList) ++ basicEncode (c.basicUsername.getD []) (c.basicPassword.getD []))
  else if strTruthy c.oauth2ClientId && strTruthy c.oauth2ClientSecret
      && strTruthy c.oauth2TokenUrl then
    match exchange with
    | .ok t => .ok (("Bearer ".toList) ++ t)
    | .error e => .error e
  else if strTruthy c.oauth2AccessToken then
    .ok (("Bearer ".toList) ++ c.oauth2AccessToken.getD [])
  else .error ⟨("No authentication configured".toList), none⟩

/-- Input parameters of the canonical `invoke` handler, after the external
JSONPath template pre-pass (spec section 9 models that pass as an injected
pure function, so the handler is embedded over the resolved parameters). -/
structure Params where
  userId : Str
  groupId : Str
  address : Option Str
deriving DecidableEq

/-- The canonical `invoke` handler (`src/script.mjs` lines 250-316):
resolve the base URL, resolve the authorization header, apply the SSWS
rewrite, issue the DELETE, and map the response — a success record on
`response.ok`, otherwise an error carrying the computed message and the
numeric status code.  `now` is the clock value used for `removedAt`. -/
def invoke (params : Params) (envAddress : Option Str) (creds : Credentials)
    (exchange : Except JsError Str) (basicEncode : Str → Str → Str)
    (response : FetchResponse) (now : Str) : InvokeOutcome :=
  match getBaseUrl params.address envAddress with
  | .error e => ⟨.error e, none⟩
  | .ok baseUrl =>
    match getAuthorizationHeader creds exchange basicEncode with
    | .error e => ⟨.error e, none⟩
    | .ok h =>
      let authHeader := rewriteAuthHeader h
      let req := unassignUserFromGroup params.userId params.groupId baseUrl authHeader
      if response.ok then
        ⟨.ok ⟨params.userId, params.groupId, true, baseUrl, now⟩, some req⟩
      else
        ⟨.error ⟨mkErrorMessage response.status response.json, some response.status⟩,
          some req⟩

namespace Dist

/-- Input parameters of the bundled invoke variant: `userId`/`groupId` are
taken as raw JavaScript values because this variant validates them itself. -/
structure Params where
  userId : JSVal
  groupId : JSVal
  address : Option Str
deriving DecidableEq

/-- Execution context of the bundled invoke variant: the `ADDRESS`
environment entry and the `BEARER_AUTH_TOKEN` secret. -/
structure Context where
  envAddress : Option Str
  bearerAuthToken : Option Str
deriving DecidableEq

/-- The bundled `invoke` handler (`src/dist/index.js` lines 228-292):
validate `userId` and `groupId` (each must be truthy and a string),
resolve the base URL, require the `BEARER_AUTH_TOKEN` secret, prefix the
token with `SSWS ` unless already prefixed, issue the DELETE, and map the
response exactly as the canonical handler does. -/
def invoke (params : Params) (ctx : Context) (response : FetchResponse)
    (now : Str) : InvokeOutcome :=
  if !jsTruthy params.userId || !typeofIsString params.userId then
    ⟨.error ⟨("Invalid or missing userId parameter".toList), none⟩, none⟩
  else if !jsTruthy params.groupId || !typeofIsString params.groupId then
    ⟨.error ⟨("Invalid or missing groupId parameter".toList), none⟩, none⟩
  else
    match getBaseUrl params.address ctx.envAddress with
    | .error e => ⟨.error e, none⟩
    | .ok baseUrl =>
      if !strTruthy ctx.bearerAuthToken then
        ⟨.error ⟨("Missing required secret: BEARER_AUTH_TOKEN".toList), none⟩, none⟩
      else
        let authToken := ctx.bearerAuthToken.getD []
        let authHeader :=
          if ("SSWS ".toList).isPrefixOf authToken then authToken
          else ("SSWS ".toList) ++ authToken
        let req := unassignUserFromGroup (jsToString params.userId)
          (jsToString params.groupId) baseUrl authHeader
        if response.ok then
          ⟨.ok ⟨jsToString params.userId, jsToString params.groupId, true, baseUrl, now⟩,
            some req⟩
        else
          ⟨.error ⟨mkErrorMessage response.status response.json, some response.status⟩,
            some req⟩

end Dist

/-- Parameters of the `halt` handler (any field may be absent). -/
structure HaltParams where
  reason : JSVal
  userId : JSVal
  groupId : JSVal
deriving DecidableEq

/-- The record returned by `halt`. -/
structure HaltRecord where
  userId : JSVal
  groupId : JSVal
  reason : JSVal
  haltedAt : Str
  cleanupCompleted : Bool
deriving DecidableEq

/-- The `halt` handler (`src/script.mjs` lines 340-354): always returns a
record, substituting the string `unknown` for a falsy `userId`/`groupId`,
echoing the halt `reason`, with the completion clock and
`cleanupCompleted: true`. -/
def halt (params : HaltParams) (now : Str) : HaltRecord where
  userId := if jsTruthy params.userId then params.userId else .str ("unknown".toList)
  groupId := if jsTruthy params.groupId then params.groupId else .str ("unknown".toList)
  reason := params.reason
  haltedAt := now
  cleanupCompleted := true

/-- Parameters of the `error` handler: the original error plus the
identifiers, as supplied by the framework. -/
structure ErrorParams where
  error : JsError
  userId : JSVal
  groupId : JSVal
deriving DecidableEq

/-- What one run of the `error` handler does: the log line it writes and
the error it raises. -/
structure ErrorOutcome where
  logLine : Str
  raised : JsError
deriving DecidableEq

/-- The `error` handler (`src/script.mjs` lines 325-332): log one summary
line and re-raise the error object from the parameters. -/
def errorHandler (params : ErrorParams) : ErrorOutcome where
  logLine := ("User group removal failed for user ".toList) ++ jsToString params.userId
      ++ (" from group ".toList) ++ jsToString params.groupId ++ (": ".toList)
      ++ params.error.message
  raised := params.error

end Okta

namespace Okta

/-! ## Helper lemmas -/

lemma hexDigit_ne_slash (n : Nat) : hexDigit n ≠ '/' := by
  unfold hexDigit; split <;> decide

lemma encodeURIComponent_no_slash (s : Str) : ∀ c ∈ encodeURIComponent s, c ≠ '/' := by
  intro c hc
  unfold encodeURIComponent at hc
  rw [List.mem_flatMap] at hc
  obtain ⟨d, hd, hcd⟩ := hc
  unfold encodeChar at hcd
  by_cases hu : isUriUnescaped d = true
  · rw [if_pos hu] at hcd
    simp at hcd
    subst hcd
    intro hslash
    subst hslash
    revert hu
    decide
  · rw [if_neg hu] at hcd
    rw [List.mem_flatMap] at hcd
    obtain ⟨b, _, hcb⟩ := hcd
    unfold pctEncodeByte at hcb
    simp at hcb
    rcases hcb with rfl | rfl | rfl
    · decide
    · exact hexDigit_ne_slash _
    · exact hexDigit_ne_slash _

lemma ssws_append_not_bearer (t : Str) :
    ("Bearer ".toList).isPrefixOf (("SSWS ".toList) ++ t) = false := by
  simp [List.isPrefixOf]

lemma ssws_prefixed_not_bearer (t : Str)
    (h : ("SSWS ".toList).isPrefixOf t = true) :
    ("Bearer ".toList).isPrefixOf t = false := by
  have hS : ("SSWS ".toList) = ['S', 'S', 'W', 'S', ' '] := rfl
  have hB : ("Bearer ".toList) = ['B', 'e', 'a', 'r', 'e', 'r', ' '] := rfl
  cases t with
  | nil => rw [hS] at h; simp [List.isPrefixOf] at h
  | cons a t =>
    rw [hS] at h
    rw [hB]
    simp [List.isPrefixOf] at h ⊢
    intro ha
    rw [← ha] at h
    simp at h

lemma rewrite_bearer (t : Str) :
    rewriteAuthHeader (("Bearer ".toList) ++ t) =
      if ("SSWS ".toList).isPrefixOf t then t else ("SSWS ".toList) ++ t := by
  unfold rewriteAuthHeader
  have hpre : ("Bearer ".toList).isPrefixOf (("Bearer ".toList) ++ t) = true := by
    rw [List.isPrefixOf_iff_prefix]
    exact List.prefix_append _ _
  have h7 : ("Bearer ".toList).length = 7 := rfl
  have hdrop : (("Bearer ".toList) ++ t).drop 7 = t := by
    rw [← h7]
    exact List.drop_left _ _
  rw [hpre]
  simp only [if_true]
  rw [hdrop]

/-! ## Claims -/

/-- Claim C1: whenever `userId` or `groupId` is missing, empty, or not a
string, the bundled `invoke` handler fails with a validation error naming
the missing/invalid field, before any network call (no fetch) is made. -/
theorem claim1_validation_precedes_fetch (params : Dist.Params) (ctx : Dist.Context)
    (response : FetchResponse) (now : Str) :
    ((jsTruthy params.userId && typeofIsString params.userId) = false →
      Dist.invoke params ctx response now =
        ⟨.error ⟨("Invalid or missing userId parameter".toList), none⟩, none⟩) ∧
    ((jsTruthy params.userId && typeofIsString params.userId) = true →
      (jsTruthy params.groupId && typeofIsString params.groupId) = false →
      Dist.invoke params ctx response now =
        ⟨.error ⟨("Invalid or missing groupId parameter".toList), none⟩, none⟩) := by
  constructor
  · intro h
    simp only [Dist.invoke, ← Bool.not_and, h]
    simp
  · intro hu hg
    simp only [Dist.invoke, ← Bool.not_and, hu, hg]
    simp

/-- Witness for C1: a missing `userId` is rejected by name, with no fetch. -/
theorem claim1_witness :
    Dist.invoke ⟨.undefined, .str ("group456".toList), some ("https://example.okta.com".toList)⟩
      ⟨none, some ("t".toList)⟩ ⟨true, 204, .ok ⟨.undefined⟩⟩ ("T".toList) =
      ⟨.error ⟨("Invalid or missing userId parameter".toList), none⟩, none⟩ :=
  (claim1_validation_precedes_fetch _ _ _ _).1 (by decide)

/-- Claim C2: for every non-empty `userId`/`groupId`, when the response is
in the success range (`response.ok`), `invoke` returns `removed: true` with
`userId`/`groupId` echoed exactly, `address` equal to the resolved base
URL, and the completion timestamp as `removedAt`. -/
theorem claim2_success_record (params : Params) (envAddress : Option Str)
    (creds : Credentials) (exchange : Except JsError Str) (basicEncode : Str → Str → Str)
    (response : FetchResponse) (now : Str) (baseUrl authHeader : Str)
    (_hu : params.userId ≠ []) (_hg : params.groupId ≠ [])
    (hb : getBaseUrl params.address envAddress = .ok baseUrl)
    (ha : getAuthorizationHeader creds exchange basicEncode = .ok authHeader)
    (hok : response.ok = true) :
    (invoke params envAddress creds exchange basicEncode response now).result =
      .ok ⟨params.userId, params.groupId, true, baseUrl, now⟩ := by
  simp [invoke, hb, ha, hok]

/-- Witness for C2: the end-to-end example scenario of the spec. -/
theorem claim2_witness :
    (invoke ⟨("user123".toList), ("group456".toList), some ("https://example.okta.com".toList)⟩
      none ⟨some ("tok".toList), none, none, none, none, none, none⟩
      (.error ⟨[], none⟩) (fun _ _ => []) ⟨true, 204, .ok ⟨.undefined⟩⟩ ("T".toList)).result =
      .ok ⟨("user123".toList), ("group456".toList), true,
        ("https://example.okta.com".toList), ("T".toList)⟩ :=
  claim2_success_record _ _ _ _ _ _ _ _ _ (by decide) (by decide) rfl rfl rfl

/-- Claim C3: for every non-success response, `invoke` raises an error
carrying the numeric status code; if the JSON body has a truthy summary
field the message embeds it verbatim after the fixed stem, and if the body
is unparseable or lacks the summary the message defaults to
`Failed to remove user from group: HTTP status`. -/
theorem claim3_failure_error (params : Params) (envAddress : Option Str)
    (creds : Credentials) (exchange : Except JsError Str) (basicEncode : Str → Str → Str)
    (response : FetchResponse) (now : Str) (baseUrl authHeader : Str)
    (hb : getBaseUrl params.address envAddress = .ok baseUrl)
    (ha : getAuthorizationHeader creds exchange basicEncode = .ok authHeader)
    (hfail : response.ok = false) :
    ∃ e, (invoke params envAddress creds exchange basicEncode response now).result =
        .error e ∧
      e.statusCode = some response.status ∧
      (∀ body s, response.json = .ok body → body.errorSummary = .str s → s ≠ [] →
        e.message = removalFailMsg ++ s) ∧
      (response.json = .error () →
        e.message = removalFailMsg ++ ("HTTP ".toList) ++ (toString response.status).toList) ∧
      (∀ body, response.json = .ok body → body.errorSummary = .undefined →
        e.message = removalFailMsg ++ ("HTTP ".toList) ++ (toString response.status).toList) := by
  refine ⟨⟨mkErrorMessage response.status response.json, some response.status⟩,
    ?_, rfl, ?_, ?_, ?_⟩
  · simp [invoke, hb, ha, hfail]
  · intro body s hj hs hne
    rw [hj]
    simp [mkErrorMessage, hs, jsTruthy, jsToString, hne]
  · intro hj
    rw [hj]
    rfl
  · intro body hj hund
    rw [hj]
    simp [mkErrorMessage, hund, jsTruthy]

/-- Witness for C3: the 404 scenario of the test suite. -/
theorem claim3_witness :
    ∃ e, (invoke ⟨("user123".toList), ("group456".toList), some ("https://example.okta.com".toList)⟩
        none ⟨some ("tok".toList), none, none, none, none, none, none⟩
        (.error ⟨[], none⟩) (fun _ _ => [])
        ⟨false, 404, .ok ⟨.str ("Not found".toList)⟩⟩ ("T".toList)).result = .error e ∧
      e.statusCode = some 404 ∧
      (∀ body s, (Except.ok ⟨.str ("Not found".toList)⟩ : Except Unit ErrorBody) = .ok body →
        body.errorSummary = .str s → s ≠ [] → e.message = removalFailMsg ++ s) ∧
      ((Except.ok ⟨.str ("Not found".toList)⟩ : Except Unit ErrorBody) = .error () →
        e.message = removalFailMsg ++ ("HTTP ".toList) ++ (toString 404).toList) ∧
      (∀ body, (Except.ok ⟨.str ("Not found".toList)⟩ : Except Unit ErrorBody) = .ok body →
        body.errorSummary = .undefined →
        e.message = removalFailMsg ++ ("HTTP ".toList) ++ (toString 404).toList) :=
  claim3_failure_error _ _ _ _ _ _ _ _ _ rfl rfl rfl

/-- Claim C4: a header of the form `Bearer token` is rewritten to
`SSWS token` unless the token already starts with `SSWS `, in which case
the token is used unchanged; and the rewrite is idempotent, so an
already-rewritten header is never double-prefixed. -/
theorem claim4_ssws_rewrite :
    (∀ token : Str, rewriteAuthHeader (("Bearer ".toList) ++ token) =
      if ("SSWS ".toList).isPrefixOf token then token else ("SSWS ".toList) ++ token) ∧
    (∀ s : Str, rewriteAuthHeader (rewriteAuthHeader s) = rewriteAuthHeader s) := by
  refine ⟨rewrite_bearer, fun s => ?_⟩
  by_cases hb : ("Bearer ".toList).isPrefixOf s = true
  · have hs : rewriteAuthHeader s =
        if ("SSWS ".toList).isPrefixOf (s.drop 7) then s.drop 7
        else ("SSWS ".toList) ++ s.drop 7 := by
      unfold rewriteAuthHeader
      rw [hb]
      simp only [if_true]
    by_cases h2 : ("SSWS ".toList).isPrefixOf (s.drop 7) = true
    · rw [hs, if_pos h2]
      unfold rewriteAuthHeader
      rw [ssws_prefixed_not_bearer _ h2]
      simp
    · rw [hs, if_neg h2]
      unfold rewriteAuthHeader
      rw [ssws_append_not_bearer]
      simp
  · have hbf : ("Bearer ".toList).isPrefixOf s = false := Bool.eq_false_iff.mpr hb
    have hs : rewriteAuthHeader s = s := by
      unfold rewriteAuthHeader
      rw [hbf]
      simp
    rw [hs, hs]

/-- Witness for C4: `Bearer tok` becomes `SSWS tok`. -/
theorem claim4_witness :
    rewriteAuthHeader (("Bearer ".toList) ++ ("tok".toList)) =
      ("SSWS ".toList) ++ ("tok".toList) := by
  rw [claim4_ssws_rewrite.1]
  decide

/-- Claim C5: when no credential scheme has sufficient material, `invoke`
fails with the authentication error `No authentication configured` and
performs no network call (the base address is assumed resolvable, since
address resolution runs first). -/
theorem claim5_no_auth_no_fetch (params : Params) (envAddress : Option Str)
    (creds : Credentials) (exchange : Except JsError Str) (basicEncode : Str → Str → Str)
    (response : FetchResponse) (now : Str) (baseUrl : Str)
    (hb : getBaseUrl params.address envAddress = .ok baseUrl)
    (h1 : strTruthy creds.bearerAuthToken = false)
    (h2 : (strTruthy creds.basicUsername && strTruthy creds.basicPassword) = false)
    (h3 : (strTruthy creds.oauth2ClientId && strTruthy creds.oauth2ClientSecret
        && strTruthy creds.oauth2TokenUrl) = false)
    (h4 : strTruthy creds.oauth2AccessToken = false) :
    invoke params envAddress creds exchange basicEncode response now =
      ⟨.error ⟨("No authentication configured".toList), none⟩, none⟩ := by
  simp [invoke, hb, getAuthorizationHeader, h1, h2, h3, h4]

/-- Witness for C5: empty secrets yield the authentication error. -/
theorem claim5_witness :
    invoke ⟨("user123".toList), ("group456".toList), some ("https://example.okta.com".toList)⟩
      none ⟨none, none, none, none, none, none, none⟩ (.error ⟨[], none⟩)
      (fun _ _ => []) ⟨true, 204, .ok ⟨.undefined⟩⟩ ("T".toList) =
      ⟨.error ⟨("No authentication configured".toList), none⟩, none⟩ :=
  claim5_no_auth_no_fetch _ _ _ _ _ _ _ _ rfl rfl rfl rfl rfl

/-- Counterexample to C6 as stated: an address ending in a double slash
resolves successfully, yet the output still ends with a slash — only one
trailing slash is removed. -/
theorem claim6_counterexample :
    getBaseUrl (some ("https://a.okta.com//".toList)) none =
      .ok ("https://a.okta.com/".toList) ∧
    ("https://a.okta.com/".toList).getLast? = some '/' := by
  decide

/-- Claim C6 (amended): base-URL resolution removes exactly one trailing
slash, so for every selected address not ending in a double slash the
output never ends with a slash; and resolution fails with the
configuration error when neither the address parameter nor the ADDRESS
environment variable is set. -/
theorem claim6_amended (paramsAddress envAddress : Option Str) (a : Str)
    (hsel : chooseAddress paramsAddress envAddress = some a)
    (hne : a ≠ [])
    (hnd : ¬ ['/', '/'] <:+ a) :
    (∃ r, getBaseUrl paramsAddress envAddress = .ok r ∧ r.getLast? ≠ some '/' ∧
      (a.getLast? = some '/' → r = a.dropLast) ∧ (a.getLast? ≠ some '/' → r = a)) ∧
    getBaseUrl none none = .error ⟨noUrlMessage, none⟩ := by
  constructor
  · have hemp : a.isEmpty = false := by
      cases a with
      | nil => exact absurd rfl hne
      | cons x t => rfl
    by_cases hl : a.getLast? = some '/'
    · obtain ⟨t, rfl⟩ := List.getLast?_eq_some_iff.mp hl
      refine ⟨t, ?_, ?_, fun _ => ?_, fun hc => absurd hl hc⟩
      · unfold getBaseUrl
        rw [hsel]
        simp [hemp, hl]
      · intro hc
        obtain ⟨t2, rfl⟩ := List.getLast?_eq_some_iff.mp hc
        exact hnd ⟨t2, by simp⟩
      · simp
    · refine ⟨a, ?_, hl, fun hc => absurd hc hl, fun _ => rfl⟩
      unfold getBaseUrl
      rw [hsel]
      simp [hemp, hl]
  · rfl

/-- Witness for the amended C6: a single trailing slash is stripped. -/
theorem claim6_witness :
    (∃ r, getBaseUrl (some ("https://example.okta.com/".toList)) none = .ok r ∧
      r.getLast? ≠ some '/' ∧
      (("https://example.okta.com/".toList).getLast? = some '/' →
        r = ("https://example.okta.com/".toList).dropLast) ∧
      (("https://example.okta.com/".toList).getLast? ≠ some '/' →
        r = ("https://example.okta.com/".toList))) ∧
    getBaseUrl none none = .error ⟨noUrlMessage, none⟩ :=
  claim6_amended _ _ _ rfl (by decide) (by decide)

/-- Claim C7: the request URL is the base URL followed by
`/api/v1/groups/`, the encoding of `groupId`, `/users/`, and the encoding
of `userId`; each identifier is percent-encoded independently and its
encoding contains no slash, so no encoded path segment spans both. -/
theorem claim7_url_shape (userId groupId baseUrl authHeader : Str) :
    (unassignUserFromGroup userId groupId baseUrl authHeader).url =
      baseUrl ++ ("/api/v1/groups/".toList) ++ encodeURIComponent groupId
        ++ ("/users/".toList) ++ encodeURIComponent userId ∧
    (∀ c ∈ encodeURIComponent groupId, c ≠ '/') ∧
    (∀ c ∈ encodeURIComponent userId, c ≠ '/') :=
  ⟨rfl, encodeURIComponent_no_slash _, encodeURIComponent_no_slash _⟩

/-- Witness for C7: identifiers with a slash and a space are encoded into
single path segments. -/
theorem claim7_witness :
    (unassignUserFromGroup ("a/b".toList) ("g h".toList) ("https://x".toList)
      ("SSWS t".toList)).url =
      ("https://x/api/v1/groups/g%20h/users/a%2Fb".toList) := by
  rw [(claim7_url_shape ("a/b".toList) ("g h".toList) ("https://x".toList)
    ("SSWS t".toList)).1]
  decide

/-- Claim C8: `halt` never fails and returns a record whose
`userId`/`groupId` default to the literal string `unknown` when absent,
whose `reason` is the supplied halt reason, with a `haltedAt` timestamp
and `cleanupCompleted` equal to `true`. -/
theorem claim8_halt_defaults (params : HaltParams) (now : Str) :
    (halt params now).reason = params.reason ∧
    (halt params now).haltedAt = now ∧
    (halt params now).cleanupCompleted = true ∧
    (params.userId = .undefined → (halt params now).userId = .str ("unknown".toList)) ∧
    (params.groupId = .undefined → (halt params now).groupId = .str ("unknown".toList)) := by
  refine ⟨rfl, rfl, rfl, ?_, ?_⟩ <;> intro h <;> simp [halt, h, jsTruthy]

/-- Witness for C8: halting with only a reason substitutes `unknown`. -/
theorem claim8_witness :
    (halt ⟨.str ("system_shutdown".toList), .undefined, .undefined⟩ ("T".toList)).reason =
      .str ("system_shutdown".toList) ∧
    (halt ⟨.str ("system_shutdown".toList), .undefined, .undefined⟩ ("T".toList)).haltedAt =
      ("T".toList) ∧
    (halt ⟨.str ("system_shutdown".toList), .undefined, .undefined⟩ ("T".toList)).cleanupCompleted =
      true ∧
    (halt ⟨.str ("system_shutdown".toList), .undefined, .undefined⟩ ("T".toList)).userId =
      .str ("unknown".toList) ∧
    (halt ⟨.str ("system_shutdown".toList), .undefined, .undefined⟩ ("T".toList)).groupId =
      .str ("unknown".toList) := by
  obtain ⟨h1, h2, h3, h4, h5⟩ :=
    claim8_halt_defaults ⟨.str ("system_shutdown".toList), .undefined, .undefined⟩ ("T".toList)
  exact ⟨h1, h2, h3, h4 rfl, h5 rfl⟩

/-- Claim C9: the `error` handler re-raises exactly the error object it
was given, unchanged, after logging the summary line. -/
theorem claim9_error_rethrow (params : ErrorParams) :
    (errorHandler params).raised = params.error ∧
    (errorHandler params).logLine =
      ("User group removal failed for user ".toList) ++ jsToString params.userId
        ++ (" from group ".toList) ++ jsToString params.groupId ++ (": ".toList)
        ++ params.error.message :=
  ⟨rfl, rfl⟩

/-- Claim C10 (implicit): a non-success response whose JSON body carries a
falsy `errorSummary` (such as the empty string) gets the default
`HTTP status` message, not the empty summary. -/
theorem claim10_falsy_summary (params : Params) (envAddress : Option Str)
    (creds : Credentials) (exchange : Except JsError Str) (basicEncode : Str → Str → Str)
    (response : FetchResponse) (now : Str) (baseUrl authHeader : Str) (body : ErrorBody)
    (hb : getBaseUrl params.address envAddress = .ok baseUrl)
    (ha : getAuthorizationHeader creds exchange basicEncode = .ok authHeader)
    (hfail : response.ok = false)
    (hjson : response.json = .ok body)
    (hfalsy : jsTruthy body.errorSummary = false) :
    (invoke params envAddress creds exchange basicEncode response now).result =
      .error ⟨removalFailMsg ++ ("HTTP ".toList) ++ (toString response.status).toList,
        some response.status⟩ := by
  simp [invoke, hb, ha, hfail, mkErrorMessage, hjson, hfalsy]

/-- Witness for C10: an empty `errorSummary` on a 404 yields the HTTP
status message. -/
theorem claim10_witness :
    (invoke ⟨("user123".toList), ("group456".toList), some ("https://example.okta.com".toList)⟩
      none ⟨some ("tok".toList), none, none, none, none, none, none⟩
      (.error ⟨[], none⟩) (fun _ _ => [])
      ⟨false, 404, .ok ⟨.str []⟩⟩ ("T".toList)).result =
      .error ⟨removalFailMsg ++ ("HTTP ".toList) ++ (toString 404).toList, some 404⟩ :=
  claim10_falsy_summary _ _ _ _ _ _ _ _ _ _ rfl rfl rfl rfl rfl

end Okta
